import Mathlib

/-!
Shallow embedding of `src/api/app.py`, a FastAPI relay that probes a fixed
list of candidate models for availability and then streams a chat completion
back to the caller as plain text.

The upstream provider is modelled as an oracle (`Upstream`): the outcome of
client construction, the outcome of a probe call per model name, and the
chunks delivered by the streaming call.  Everything the handler itself does
(candidate iteration, error capture, error-message classification, delta
filtering) is translated directly from the Python source.
-/

/-- A chat message as assembled by the handler: a role string and a content
string (`messages=[...]` entries, app.py lines 56-58 and 89-91). -/
structure Message where
  role : String
  content : String
deriving DecidableEq

/-- An upstream completion request as assembled by the handler: the model
name, the message list, the optional `max_tokens` cap, and whether streaming
is enabled. -/
structure CompletionRequest where
  model : String
  messages : List Message
  max_tokens : Option Nat
  stream : Bool
deriving DecidableEq

/-- The `ChatRequest` pydantic model (app.py lines 27-31): two required
message strings, an optional model defaulting to "gpt-4.1", and a required
API key. -/
structure ChatRequest where
  developer_message : String
  user_message : String
  model : Option String
  api_key : String
deriving DecidableEq

/-- `MODEL_CANDIDATES` (app.py lines 34-39): the models to try, in
preference order. -/
def MODEL_CANDIDATES : List String :=
  ["gpt-4.1-nano", "gpt-4.1-mini", "gpt-3.5-turbo", "gpt-4.1"]

/-- The probe request the loop issues for a candidate model
(app.py lines 55-61): one user message with content "test", `max_tokens=1`,
not streamed. -/
def probeRequest (m : String) : CompletionRequest :=
  { model := m
    messages := [{ role := "user", content := "test" }]
    max_tokens := some 1
    stream := false }

/-- The streaming completion request issued with the working model
(app.py lines 87-93): one user message carrying the request's
`user_message`, streaming enabled, no token cap. -/
def streamRequest (m : String) (user_message : String) : CompletionRequest :=
  { model := m
    messages := [{ role := "user", content := user_message }]
    max_tokens := none
    stream := true }

/-- One incremental chunk of a streaming completion, reduced to the only
field the generator reads: `chunk.choices[0].delta.content`, which may be
absent (`None`). -/
structure StreamChunk where
  delta_content : Option String
deriving DecidableEq

/-- The upstream provider's behavior for the client built from the request's
`api_key`: whether `OpenAI(api_key=...)` itself raises, the outcome of the
probe call per model name (an `Except.error` carries `str(e)`), and the
chunks the streaming call delivers for a model name and user content. -/
structure Upstream where
  client_init : Except String Unit
  probe : String → Except String Unit
  stream : String → String → List StreamChunk

/-- Result of the probing phase (app.py lines 49-68): the `working_model`
and `last_exception` variables after the loop, plus the trace of probe
requests actually issued. -/
structure ProbeOutcome where
  working_model : Option String
  last_exception : Option String
  calls : List CompletionRequest
deriving DecidableEq

/-- The model probing loop (app.py lines 52-68): try each candidate in
order; the first one whose probe succeeds becomes the working model and the
loop breaks; a failure overwrites `last_exception` and the loop continues. -/
def probeModels (p : String → Except String Unit) :
    List String → Option String → ProbeOutcome
  | [], lastExc =>
    { working_model := none, last_exception := lastExc, calls := [] }
  | m :: rest, lastExc =>
    match p m with
    | Except.ok _ =>
      { working_model := some m, last_exception := lastExc
        calls := [probeRequest m] }
    | Except.error e =>
      let r := probeModels p rest (some e)
      { working_model := r.working_model, last_exception := r.last_exception
        calls := probeRequest m :: r.calls }

/-- How a probe failure updates the `last_exception` variable: an error
overwrites it with the new message, a success leaves it unchanged. -/
def recordExc (p : String → Except String Unit) (acc : Option String)
    (m : String) : Option String :=
  match p m with
  | Except.ok _ => acc
  | Except.error e => some e

/-- Python's substring test `pat in hay`, on the underlying character
lists: the pattern occurs as a contiguous run somewhere in the text. -/
def subAux (pat : List Char) : List Char → Bool
  | [] => pat.isEmpty
  | a :: as => pat.isPrefixOf (a :: as) || subAux pat as

/-- `pat in hay` for strings. -/
def strContains (hay pat : String) : Bool := subAux pat.data hay.data

/-- Python's `str.lower()` (ASCII case folding, which covers every string
the classifier inspects). -/
def lowerStr (s : String) : String := ⟨s.data.map Char.toLower⟩

/-- The total-failure error classification of `/api/chat`
(app.py lines 76-83), as written in the source: `insufficient_quota` is
checked against the raw message while `quota` is checked against the lowered
message; `model_not_found` is checked against the raw message;
`authentication` and `invalid_api_key` are checked against the lowered
message; anything else is a 500.  The detail is always the raw message. -/
def classifyError (error_message : String) : Nat × String :=
  if strContains error_message "insufficient_quota"
      || strContains (lowerStr error_message) "quota" then
    (429, error_message)
  else if strContains error_message "model_not_found" then
    (404, error_message)
  else if strContains (lowerStr error_message) "authentication"
      || strContains (lowerStr error_message) "invalid_api_key" then
    (401, error_message)
  else
    (500, error_message)

/-- Case-insensitive substring check, used to state the classification rule
the way the specification words it: both sides are lowered first. -/
def containsCI (hay pat : String) : Bool :=
  strContains (lowerStr hay) (lowerStr pat)

/-- Classification rule as the specification words it (with the case rules
made precise): a case-insensitive `quota` check, then a case-sensitive
`model_not_found` check, then case-insensitive `authentication` /
`invalid_api_key` checks, else 500; the detail is the raw message. -/
def classifyErrorSpec (msg : String) : Nat × String :=
  if containsCI msg "quota" then (429, msg)
  else if strContains msg "model_not_found" then (404, msg)
  else if containsCI msg "authentication" || containsCI msg "invalid_api_key" then
    (401, msg)
  else (500, msg)

/-- The `generate` async generator (app.py lines 86-101): for each upstream
chunk, yield its content delta whenever that delta is not `None`. -/
def generate : List StreamChunk → List String
  | [] => []
  | c :: rest =>
    match c.delta_content with
    | some t => t :: generate rest
    | none => generate rest

/-- Concatenation of the yielded fragments, i.e. the plain-text body the
client ends up receiving from the streaming response. -/
def concatAll : List String → String
  | [] => ""
  | s :: rest => s ++ concatAll rest

/-- An exception escaping the handler body: either a FastAPI
`HTTPException` carrying a status and detail, or any other exception
carrying its message text. -/
inductive HandlerExc where
  | http (status : Nat) (detail : String)
  | other (msg : String)
deriving DecidableEq

/-- What the `chat` endpoint returns to the caller: a 200 streaming
response (a sequence of plain-text fragments) or an HTTP error with a
status code and a detail string. -/
inductive ChatResult where
  | streamResp (fragments : List String)
  | httpError (status : Nat) (detail : String)
deriving DecidableEq

/-- The body of the `chat` handler inside the outer `try`
(app.py lines 44-101), paired with the trace of upstream calls it issues:
construct the client, run the probing loop, on total failure classify the
last error (falling back to "No models available" when none was captured)
and raise the corresponding `HTTPException`, otherwise issue the streaming
call with the working model and the request's `user_message`. -/
def chatExec (request : ChatRequest) (up : Upstream) :
    Except HandlerExc (List String) × List CompletionRequest :=
  match up.client_init with
  | Except.error e => (Except.error (HandlerExc.other e), [])
  | Except.ok _ =>
    let outcome := probeModels up.probe MODEL_CANDIDATES none
    match outcome.working_model with
    | none =>
      let error_message :=
        match outcome.last_exception with
        | some e => e
        | none => "No models available"
      let sd := classifyError error_message
      (Except.error (HandlerExc.http sd.1 sd.2), outcome.calls)
    | some wm =>
      (Except.ok (generate (up.stream wm request.user_message)),
        outcome.calls ++ [streamRequest wm request.user_message])

/-- The outer `try`/`except` of `chat` (app.py lines 103-110):
`HTTPException`s are re-raised unchanged, any other exception becomes an
HTTP 500 whose detail is the exception's message text. -/
def wrapResult : Except HandlerExc (List String) → ChatResult
  | Except.ok fragments => ChatResult.streamResp fragments
  | Except.error (HandlerExc.http s d) => ChatResult.httpError s d
  | Except.error (HandlerExc.other m) => ChatResult.httpError 500 m

/-- The POST /api/chat handler: the handler body wrapped by the outer
exception handler. -/
def chat (request : ChatRequest) (up : Upstream) : ChatResult :=
  wrapResult (chatExec request up).1

/-- A raw JSON request body for POST /api/chat: each of the four
`ChatRequest` fields is present with a string value or absent. -/
structure RawBody where
  developer_message : Option String
  user_message : Option String
  model : Option String
  api_key : Option String
deriving DecidableEq

/-- Modelled from the spec: the request-body schema validation performed by
the host framework against `ChatRequest` (framework code, not in src/) —
the body must supply `developer_message`, `user_message` and `api_key`;
`model` is optional and defaults to "gpt-4.1"; a missing required field is
a client validation error reported before the handler body runs. -/
def parseChatRequest (b : RawBody) : Except String ChatRequest :=
  match b.developer_message, b.user_message, b.api_key with
  | some d, some u, some k =>
    Except.ok
      { developer_message := d, user_message := u
        model := some (b.model.getD "gpt-4.1"), api_key := k }
  | _, _, _ => Except.error "field required"

/-- Outcome of the full service pipeline for POST /api/chat: either the
framework rejects the body before the handler runs, or the handler's
result is returned. -/
inductive ServiceResult where
  | validationError
  | resp (r : ChatResult)
deriving DecidableEq

/-- The full service pipeline for POST /api/chat: framework validation of
the raw body, then the handler; the second component is the list of
upstream calls issued while serving the request. -/
def service (b : RawBody) (up : Upstream) :
    ServiceResult × List CompletionRequest :=
  match parseChatRequest b with
  | Except.error _ => (ServiceResult.validationError, [])
  | Except.ok req =>
    let r := chatExec req up
    (ServiceResult.resp (wrapResult r.1), r.2)

/-- The GET /api/health handler (app.py lines 113-115): a constant,
returning status 200 (the framework default for a plain return) with the
single-field body mapping "status" to "ok". -/
def health_check : Nat × List (String × String) := (200, [("status", "ok")])

/-- An upstream for which client construction and every probe succeed and
every stream is empty. -/
def upAllOk : Upstream :=
  { client_init := Except.ok ()
    probe := fun _ => Except.ok ()
    stream := fun _ _ => [] }

/-- An upstream for which client construction succeeds but every probe
fails with the message "boom". -/
def upAllFail : Upstream :=
  { client_init := Except.ok ()
    probe := fun _ => Except.error "boom"
    stream := fun _ _ => [] }

/-- An upstream for which client construction itself raises. -/
def upInitFail : Upstream :=
  { client_init := Except.error "client construction failed"
    probe := fun _ => Except.ok ()
    stream := fun _ _ => [] }

/-- A concrete well-formed request used to instantiate theorems. -/
def reqDefault : ChatRequest :=
  { developer_message := "You are helpful"
    user_message := "hi"
    model := some "gpt-4.1"
    api_key := "sk-test" }

/-! ### Substring machinery -/

lemma isPrefixOf_eq_true_iff (l1 l2 : List Char) :
    l1.isPrefixOf l2 = true ↔ l1 <+: l2 :=
  List.isPrefixOf_iff_prefix

lemma subAux_eq_true_iff (pat l : List Char) :
    subAux pat l = true ↔ pat <:+: l := by
  induction l with
  | nil => simp [subAux, List.isEmpty_iff, List.infix_nil]
  | cons a as ih =>
    simp [subAux, Bool.or_eq_true, isPrefixOf_eq_true_iff, ih,
      List.infix_cons_iff]

lemma strContains_iff (hay pat : String) :
    strContains hay pat = true ↔ pat.data <:+: hay.data := by
  simpa [strContains] using subAux_eq_true_iff pat.data hay.data

lemma lowerStr_data (s : String) :
    (lowerStr s).data = s.data.map Char.toLower := rfl

lemma infix_map_toLower (l1 l2 : List Char) (h : l1 <:+: l2) :
    l1.map Char.toLower <:+: l2.map Char.toLower := by
  obtain ⟨s, t, rfl⟩ := h
  exact ⟨s.map Char.toLower, t.map Char.toLower, by simp⟩

/-! ### Classifier lemmas -/

lemma quota_of_insufficient (msg : String)
    (h : strContains msg "insufficient_quota" = true) :
    strContains (lowerStr msg) "quota" = true := by
  rw [strContains_iff] at h ⊢
  rw [lowerStr_data]
  have h2 : ("insufficient_quota".data.map Char.toLower) <:+:
      msg.data.map Char.toLower := infix_map_toLower _ _ h
  have h3 : "insufficient_quota".data.map Char.toLower =
      "insufficient_quota".data := by decide
  rw [h3] at h2
  exact List.IsInfix.trans (by decide) h2

lemma cond429_eq (msg : String) :
    (strContains msg "insufficient_quota"
      || strContains (lowerStr msg) "quota") =
      strContains (lowerStr msg) "quota" := by
  cases h : strContains msg "insufficient_quota" with
  | false => simp
  | true => simp [quota_of_insufficient msg h]

lemma classifyError_eq_spec (msg : String) :
    classifyError msg = classifyErrorSpec msg := by
  unfold classifyError classifyErrorSpec containsCI
  rw [cond429_eq msg]
  have h1 : lowerStr "quota" = "quota" := by decide
  have h2 : lowerStr "authentication" = "authentication" := by decide
  have h3 : lowerStr "invalid_api_key" = "invalid_api_key" := by decide
  rw [h1, h2, h3]

lemma classifyError_snd (msg : String) : (classifyError msg).2 = msg := by
  unfold classifyError
  split_ifs <;> rfl

lemma status429_iff (msg : String) :
    (classifyError msg).1 = 429 ↔
      strContains (lowerStr msg) "quota" = true := by
  unfold classifyError
  rw [cond429_eq]
  split_ifs with hq hm ha
  · simp [hq]
  · simp [hq]
  · simp [hq]
  · simp [hq]

/-! ### Claim C2 -/

/-- Claim C2 counterexample: the substring checks are not uniform in case
handling.  "QUOTA" contains none of the five listed substrings literally,
yet it is classified 429 rather than 500 (the lowered-message quota check
fires); and under a uniformly case-insensitive reading, "MODEL_NOT_FOUND"
would be classified 404, yet it is classified 500 (the model_not_found
check is performed on the raw message). -/
theorem chat_error_classification_ce :
    classifyError "QUOTA" = (429, "QUOTA") ∧
    classifyError "MODEL_NOT_FOUND" = (500, "MODEL_NOT_FOUND") := by
  constructor <;> decide

/-- Claim C2 (amended): when every candidate probe fails, POST /api/chat
classifies the last captured error's message with precedence quota as 429,
then model_not_found as 404, then authentication or invalid_api_key as 401,
else 500 — where the quota, authentication and invalid_api_key checks are
case-insensitive while the model_not_found check is case-sensitive (the
case-sensitive insufficient_quota check is subsumed by the case-insensitive
quota check) — and in every case the response detail is the raw upstream
error text of the last candidate's failure. -/
theorem chat_total_failure_classification (req : ChatRequest) (up : Upstream)
    (e1 e2 e3 e4 : String)
    (hinit : up.client_init = Except.ok ())
    (h1 : up.probe "gpt-4.1-nano" = Except.error e1)
    (h2 : up.probe "gpt-4.1-mini" = Except.error e2)
    (h3 : up.probe "gpt-3.5-turbo" = Except.error e3)
    (h4 : up.probe "gpt-4.1" = Except.error e4) :
    (∀ msg, classifyError msg = classifyErrorSpec msg) ∧
    chat req up = ChatResult.httpError (classifyErrorSpec e4).1 e4 := by
  refine ⟨classifyError_eq_spec, ?_⟩
  have hout : probeModels up.probe MODEL_CANDIDATES none =
      { working_model := none, last_exception := some e4
        calls := MODEL_CANDIDATES.map probeRequest } := by
    simp [probeModels, MODEL_CANDIDATES, h1, h2, h3, h4]
  simp [chat, chatExec, hinit, hout, wrapResult, classifyError_eq_spec,
    classifyError_snd]
  rw [← classifyError_eq_spec, classifyError_snd]

/-- Claim C2 witness: the amended classification theorem applied to an
upstream whose four probes fail with an authentication error. -/
theorem chat_total_failure_classification_witness :
    (∀ msg, classifyError msg = classifyErrorSpec msg) ∧
    chat reqDefault
      { client_init := Except.ok ()
        probe := fun _ => Except.error "Incorrect API key: authentication failed"
        stream := fun _ _ => [] } =
      ChatResult.httpError
        (classifyErrorSpec "Incorrect API key: authentication failed").1
        "Incorrect API key: authentication failed" :=
  chat_total_failure_classification reqDefault _ _ _ _ _ rfl rfl rfl rfl rfl

/-! ### Claim C4 -/

/-- Claim C4 counterexample: the classification is not invariant under
changes of letter case — "MODEL_NOT_FOUND" and "model_not_found" are
case variants of each other (equal after lowering) yet one is classified
500 and the other 404. -/
theorem chat_case_insensitivity_ce :
    lowerStr "MODEL_NOT_FOUND" = lowerStr "model_not_found" ∧
    classifyError "model_not_found" = (404, "model_not_found") ∧
    classifyError "MODEL_NOT_FOUND" = (500, "MODEL_NOT_FOUND") := by
  refine ⟨by decide, by decide, by decide⟩

/-- Claim C4 (amended): the quota check is case-insensitive — for any two
messages equal up to letter case the chosen status is 429 for one iff it is
429 for the other, and "INSUFFICIENT_QUOTA" is classified 429 like its
lowercase form — but the model_not_found check is case-sensitive, so the
overall status is not invariant under case changes ("MODEL_NOT_FOUND"
yields 500 while "model_not_found" yields 404). -/
theorem chat_quota_check_case_insensitive (s t : String)
    (h : lowerStr s = lowerStr t) :
    ((classifyError s).1 = 429 ↔ (classifyError t).1 = 429) ∧
    classifyError "INSUFFICIENT_QUOTA" = (429, "INSUFFICIENT_QUOTA") := by
  constructor
  · rw [status429_iff, status429_iff, h]
  · decide

/-- Claim C4 witness: the amended case-insensitivity theorem applied to the
case variants "QuOtA exceeded" and "quota exceeded". -/
theorem chat_quota_check_case_insensitive_witness :
    ((classifyError "QuOtA exceeded").1 = 429 ↔
      (classifyError "quota exceeded").1 = 429) ∧
    classifyError "INSUFFICIENT_QUOTA" = (429, "INSUFFICIENT_QUOTA") :=
  chat_quota_check_case_insensitive "QuOtA exceeded" "quota exceeded"
    (by decide)

/-! ### Claim C7 -/

/-- Claim C7: GET /api/health is a constant returning status 200 with the
body mapping "status" to "ok"; it takes no input and touches no upstream
state, so its result cannot depend on upstream availability or on
request-supplied data. -/
theorem health_check_ok : health_check = (200, [("status", "ok")]) := rfl

/-! ### Probe loop lemmas -/

lemma probeModels_first_ok (p : String → Except String Unit)
    (pre : List String) (m : String) (post : List String)
    (acc : Option String)
    (hfail : ∀ x ∈ pre, p x ≠ Except.ok ())
    (hok : p m = Except.ok ()) :
    probeModels p (pre ++ m :: post) acc =
      { working_model := some m
        last_exception := pre.foldl (recordExc p) acc
        calls := (pre ++ [m]).map probeRequest } := by
  induction pre generalizing acc with
  | nil => simp [probeModels, hok]
  | cons x xs ih =>
    have hx := hfail x (by simp)
    cases hpx : p x with
    | ok u => cases u; exact absurd hpx hx
    | error e =>
      have hxs : ∀ y ∈ xs, p y ≠ Except.ok () := fun y hy =>
        hfail y (by simp [hy])
      simp [probeModels, hpx, ih (some e) hxs, recordExc]

lemma foldl_recordExc_last (p : String → Except String Unit)
    (pre : List String) (x : String) (e : String)
    (hx : pre.getLast? = some x) (he : p x = Except.error e) :
    ∀ acc, pre.foldl (recordExc p) acc = some e := by
  induction pre with
  | nil => cases hx
  | cons y ys ih =>
    intro acc
    cases ys with
    | nil =>
      simp only [List.getLast?_singleton, Option.some.injEq] at hx
      subst hx
      simp [recordExc, he]
    | cons z zs =>
      have hx2 : (z :: zs).getLast? = some x := by
        simpa [List.getLast?_cons_cons] using hx
      simpa [List.foldl] using ih hx2 (recordExc p acc y)

/-! ### Claim C1 -/

/-- Claim C1: the probing loop walks the fixed candidate list
["gpt-4.1-nano", "gpt-4.1-mini", "gpt-3.5-turbo", "gpt-4.1"] in order; if
every candidate before `m` fails and `m`'s probe succeeds, then `m` becomes
the working model, exactly the candidates up to and including `m` are
probed (so one plus the number of earlier failures; later candidates are
not tried), every probe request carries the single user message "test" with
output capped at 1 token and no streaming, and the last exception is `none`
when `m` is first and otherwise the error recorded by the failing candidate
probed immediately before success. -/
theorem chat_probe_first_success (up : Upstream)
    (pre : List String) (m : String) (post : List String)
    (hsplit : MODEL_CANDIDATES = pre ++ m :: post)
    (hfail : ∀ x ∈ pre, ∃ e, up.probe x = Except.error e)
    (hok : up.probe m = Except.ok ()) :
    MODEL_CANDIDATES = ["gpt-4.1-nano", "gpt-4.1-mini", "gpt-3.5-turbo", "gpt-4.1"] ∧
    (probeModels up.probe MODEL_CANDIDATES none).working_model = some m ∧
    (probeModels up.probe MODEL_CANDIDATES none).calls =
      (pre ++ [m]).map probeRequest ∧
    (probeModels up.probe MODEL_CANDIDATES none).calls.length =
      pre.length + 1 ∧
    (∀ c ∈ (probeModels up.probe MODEL_CANDIDATES none).calls,
      c.messages = [{ role := "user", content := "test" }] ∧
      c.max_tokens = some 1 ∧ c.stream = false) ∧
    (pre = [] →
      (probeModels up.probe MODEL_CANDIDATES none).last_exception = none) ∧
    (∀ x ∈ pre.getLast?, ∀ e, up.probe x = Except.error e →
      (probeModels up.probe MODEL_CANDIDATES none).last_exception = some e) := by
  have hfail' : ∀ x ∈ pre, up.probe x ≠ Except.ok () := by
    intro x hx hcon
    obtain ⟨e, he⟩ := hfail x hx
    rw [he] at hcon
    cases hcon
  have hmain := probeModels_first_ok up.probe pre m post none hfail' hok
  refine ⟨rfl, ?_⟩
  rw [hsplit, hmain]
  refine ⟨rfl, rfl, by simp, ?_, ?_, ?_⟩
  · intro c hc
    simp only [List.mem_map] at hc
    obtain ⟨x, _, rfl⟩ := hc
    exact ⟨rfl, rfl, rfl⟩
  · intro hpre
    subst hpre
    rfl
  · intro x hx e he
    exact foldl_recordExc_last up.probe pre x e hx he none

/-- Claim C1 witness: the probe theorem applied with an upstream whose
first probe succeeds, so exactly one probe call is made. -/
theorem chat_probe_first_success_witness :
    MODEL_CANDIDATES = ["gpt-4.1-nano", "gpt-4.1-mini", "gpt-3.5-turbo", "gpt-4.1"] ∧
    (probeModels upAllOk.probe MODEL_CANDIDATES none).working_model =
      some "gpt-4.1-nano" ∧
    (probeModels upAllOk.probe MODEL_CANDIDATES none).calls =
      (([] : List String) ++ ["gpt-4.1-nano"]).map probeRequest ∧
    (probeModels upAllOk.probe MODEL_CANDIDATES none).calls.length =
      List.length ([] : List String) + 1 ∧
    (∀ c ∈ (probeModels upAllOk.probe MODEL_CANDIDATES none).calls,
      c.messages = [{ role := "user", content := "test" }] ∧
      c.max_tokens = some 1 ∧ c.stream = false) ∧
    (([] : List String) = [] →
      (probeModels upAllOk.probe MODEL_CANDIDATES none).last_exception = none) ∧
    (∀ x ∈ ([] : List String).getLast?, ∀ e, upAllOk.probe x = Except.error e →
      (probeModels upAllOk.probe MODEL_CANDIDATES none).last_exception = some e) :=
  chat_probe_first_success upAllOk [] "gpt-4.1-nano"
    ["gpt-4.1-mini", "gpt-3.5-turbo", "gpt-4.1"] rfl (by simp) rfl

/-! ### Claim C10 -/

/-- Claim C10: the candidate list is a non-empty constant, so whenever the
probing phase ends without a working model the last candidate "gpt-4.1" was
probed and failed, the captured last exception is exactly that failure's
message, and the handler reports that real upstream message (the
"No models available" fallback is never the reported detail). -/
theorem chat_fallback_unreachable (req : ChatRequest) (up : Upstream)
    (hinit : up.client_init = Except.ok ())
    (hwm : (probeModels up.probe MODEL_CANDIDATES none).working_model = none) :
    ∃ e, up.probe "gpt-4.1" = Except.error e ∧
      (probeModels up.probe MODEL_CANDIDATES none).last_exception = some e ∧
      chat req up = ChatResult.httpError (classifyError e).1 e := by
  cases hp1 : up.probe "gpt-4.1-nano" with
  | ok u => cases u; simp [probeModels, MODEL_CANDIDATES, hp1] at hwm
  | error e1 =>
  cases hp2 : up.probe "gpt-4.1-mini" with
  | ok u => cases u; simp [probeModels, MODEL_CANDIDATES, hp1, hp2] at hwm
  | error e2 =>
  cases hp3 : up.probe "gpt-3.5-turbo" with
  | ok u => cases u; simp [probeModels, MODEL_CANDIDATES, hp1, hp2, hp3] at hwm
  | error e3 =>
  cases hp4 : up.probe "gpt-4.1" with
  | ok u => cases u; simp [probeModels, MODEL_CANDIDATES, hp1, hp2, hp3, hp4] at hwm
  | error e4 =>
    have hout : probeModels up.probe MODEL_CANDIDATES none =
        { working_model := none, last_exception := some e4
          calls := MODEL_CANDIDATES.map probeRequest } := by
      simp [probeModels, MODEL_CANDIDATES, hp1, hp2, hp3, hp4]
    refine ⟨e4, rfl, by rw [hout], ?_⟩
    simp [chat, chatExec, hinit, hout, wrapResult, classifyError_snd]

/-- Claim C10 witness: the fallback-unreachability theorem applied to an
upstream whose probes all fail with the message "boom". -/
theorem chat_fallback_unreachable_witness :
    ∃ e, upAllFail.probe "gpt-4.1" = Except.error e ∧
      (probeModels upAllFail.probe MODEL_CANDIDATES none).last_exception = some e ∧
      chat reqDefault upAllFail = ChatResult.httpError (classifyError e).1 e :=
  chat_fallback_unreachable reqDefault upAllFail rfl (by decide)

/-! ### Claim C3 -/

lemma body_drop_empty (chunks : List StreamChunk) :
    concatAll (generate
        (chunks.filter (fun c => c.delta_content.getD "" != ""))) =
      concatAll (generate chunks) := by
  induction chunks with
  | nil => rfl
  | cons c rest ih =>
    cases hd : c.delta_content with
    | none => simp [List.filter_cons, hd, generate, ih]
    | some t =>
      by_cases ht : t = ""
      · subst ht
        simp [List.filter_cons, hd, generate, concatAll, ih]
      · simp [List.filter_cons, hd, ht, generate, concatAll, ih]

/-- Claim C3: the streaming relay forwards exactly the upstream content
deltas, one fragment at a time in arrival order (the yielded fragments are
precisely the present deltas, with chunks whose delta is absent skipped),
the delivered plain-text body is unchanged when chunks with an absent or
empty delta are omitted from the upstream sequence, and for the upstream
chunks "Hello", ", ", "world" (with an absent-delta chunk and an empty
fragment interleaved) the delivered body is "Hello, world". -/
theorem chat_stream_relay (chunks : List StreamChunk) :
    generate chunks = chunks.filterMap StreamChunk.delta_content ∧
    concatAll (generate chunks) =
      concatAll (generate
        (chunks.filter (fun c => c.delta_content.getD "" != ""))) ∧
    concatAll (generate
      [{ delta_content := some "Hello" }, { delta_content := none },
       { delta_content := some ", " }, { delta_content := some "" },
       { delta_content := some "world" }]) = "Hello, world" := by
  refine ⟨?_, (body_drop_empty chunks).symm, by decide⟩
  induction chunks with
  | nil => rfl
  | cons c rest ih =>
    cases hd : c.delta_content with
    | none => simp [generate, hd, ih]
    | some t => simp [generate, hd, ih]

/-! ### Claim C5 -/

lemma parseChatRequest_missing_user (dm mdl key : Option String) :
    parseChatRequest
        { developer_message := dm, user_message := none
          model := mdl, api_key := key } =
      Except.error "field required" := by
  cases dm <;> cases key <;> rfl

lemma parseChatRequest_missing_key (dm um mdl : Option String) :
    parseChatRequest
        { developer_message := dm, user_message := um
          model := mdl, api_key := none } =
      Except.error "field required" := by
  cases dm <;> cases um <;> rfl

/-- Claim C5: a request body missing the api_key field or the user_message
field fails schema validation, and the pipeline issues no upstream call at
all: no client behavior is consulted and no probe is attempted. -/
theorem chat_missing_field_validation (b : RawBody) (up : Upstream)
    (h : b.user_message = none ∨ b.api_key = none) :
    service b up = (ServiceResult.validationError, []) := by
  rcases b with ⟨dm, um, mdl, key⟩
  rcases h with h | h
  · have h' : um = none := h
    subst h'
    simp [service, parseChatRequest_missing_user]
  · have h' : key = none := h
    subst h'
    simp [service, parseChatRequest_missing_key]

/-- Claim C5 witness: the validation theorem applied to a body that omits
api_key, against an upstream that would answer every call. -/
theorem chat_missing_field_validation_witness :
    service
      { developer_message := some "You are helpful"
        user_message := some "hello", model := none, api_key := none }
      upAllOk = (ServiceResult.validationError, []) :=
  chat_missing_field_validation _ upAllOk (Or.inr rfl)

/-! ### Claim C6 -/

lemma probeModels_calls_shape (p : String → Except String Unit)
    (l : List String) :
    ∀ acc, ∀ c ∈ (probeModels p l acc).calls, ∃ x, c = probeRequest x := by
  induction l with
  | nil =>
    intro acc c hc
    simp [probeModels] at hc
  | cons m rest ih =>
    intro acc c hc
    cases hp : p m with
    | ok u =>
      simp [probeModels, hp] at hc
      exact ⟨m, hc⟩
    | error e =>
      simp [probeModels, hp] at hc
      rcases hc with rfl | hc
      · exact ⟨m, rfl⟩
      · exact ih (some e) c hc

lemma chatExec_calls_shape (r : ChatRequest) (up : Upstream) :
    ∀ c ∈ (chatExec r up).2,
      ∃ x, c = probeRequest x ∨ c = streamRequest x r.user_message := by
  intro c hc
  simp only [chatExec] at hc
  rcases hcl : up.client_init with e | u
  · rw [hcl] at hc
    simp at hc
  · rw [hcl] at hc
    rcases hwm : (probeModels up.probe MODEL_CANDIDATES none).working_model
      with _ | wm
    · rw [hwm] at hc
      simp at hc
      obtain ⟨x, hx⟩ := probeModels_calls_shape up.probe MODEL_CANDIDATES none c hc
      exact ⟨x, Or.inl hx⟩
    · rw [hwm] at hc
      simp at hc
      rcases hc with hc | rfl
      · obtain ⟨x, hx⟩ :=
          probeModels_calls_shape up.probe MODEL_CANDIDATES none c hc
        exact ⟨x, Or.inl hx⟩
      · exact ⟨wm, Or.inr rfl⟩

/-- Claim C6: the caller-supplied model and developer_message fields are
accepted but inert — two requests agreeing on user_message and api_key
produce the same handler execution (same probe sequence, same selected
model, same upstream call trace, same response), and every message sent
upstream has role "user" with content either the probe text "test" or the
request's user_message, so developer_message is never sent upstream. -/
theorem chat_inert_fields (r1 r2 : ChatRequest) (up : Upstream)
    (hu : r1.user_message = r2.user_message)
    (hk : r1.api_key = r2.api_key) :
    chatExec r1 up = chatExec r2 up ∧
    chat r1 up = chat r2 up ∧
    (∀ c ∈ (chatExec r1 up).2, ∀ msg ∈ c.messages,
      msg.role = "user" ∧
        (msg.content = "test" ∨ msg.content = r1.user_message)) := by
  have hexec : chatExec r1 up = chatExec r2 up := by
    unfold chatExec
    rw [hu]
  refine ⟨hexec, by unfold chat; rw [hexec], ?_⟩
  intro c hc msg hmsg
  obtain ⟨x, hx | hx⟩ := chatExec_calls_shape r1 up c hc
  · subst hx
    simp [probeRequest] at hmsg
    subst hmsg
    exact ⟨rfl, Or.inl rfl⟩
  · subst hx
    simp [streamRequest] at hmsg
    subst hmsg
    exact ⟨rfl, Or.inr rfl⟩

/-- Claim C6 witness: the inertness theorem applied to two requests that
differ in both model and developer_message. -/
theorem chat_inert_fields_witness :
    chatExec
        { developer_message := "A", user_message := "hi"
          model := some "gpt-9", api_key := "sk-test" } upAllOk =
      chatExec
        { developer_message := "B", user_message := "hi"
          model := none, api_key := "sk-test" } upAllOk ∧
    chat
        { developer_message := "A", user_message := "hi"
          model := some "gpt-9", api_key := "sk-test" } upAllOk =
      chat
        { developer_message := "B", user_message := "hi"
          model := none, api_key := "sk-test" } upAllOk ∧
    (∀ c ∈ (chatExec
        { developer_message := "A", user_message := "hi"
          model := some "gpt-9", api_key := "sk-test" } upAllOk).2,
      ∀ msg ∈ c.messages,
        msg.role = "user" ∧ (msg.content = "test" ∨ msg.content = "hi")) :=
  chat_inert_fields _ _ upAllOk rfl rfl

/-! ### Claim C8 -/

/-- Claim C8: schema validation does not enforce non-emptiness — a body
whose user_message is the empty string passes validation, probing proceeds,
and on success the empty string is sent upstream verbatim as the sole user
content of the streaming call. -/
theorem chat_empty_user_message (d k : String) (mdl : Option String)
    (up : Upstream)
    (hinit : up.client_init = Except.ok ())
    (hok : up.probe "gpt-4.1-nano" = Except.ok ()) :
    parseChatRequest
        { developer_message := some d, user_message := some ""
          model := mdl, api_key := some k } =
      Except.ok
        { developer_message := d, user_message := ""
          model := some (mdl.getD "gpt-4.1"), api_key := k } ∧
    (service
        { developer_message := some d, user_message := some ""
          model := mdl, api_key := some k } up).2 =
      [probeRequest "gpt-4.1-nano", streamRequest "gpt-4.1-nano" ""] ∧
    (streamRequest "gpt-4.1-nano" "").messages =
      [{ role := "user", content := "" }] := by
  refine ⟨rfl, ?_, rfl⟩
  simp [service, parseChatRequest, chatExec, hinit, probeModels,
    MODEL_CANDIDATES, hok]

/-- Claim C8 witness: the empty-user_message theorem applied to an
upstream whose first probe succeeds. -/
theorem chat_empty_user_message_witness :
    parseChatRequest
        { developer_message := some "dev", user_message := some ""
          model := none, api_key := some "sk-1" } =
      Except.ok
        { developer_message := "dev", user_message := ""
          model := some ((none : Option String).getD "gpt-4.1")
          api_key := "sk-1" } ∧
    (service
        { developer_message := some "dev", user_message := some ""
          model := none, api_key := some "sk-1" } upAllOk).2 =
      [probeRequest "gpt-4.1-nano", streamRequest "gpt-4.1-nano" ""] ∧
    (streamRequest "gpt-4.1-nano" "").messages =
      [{ role := "user", content := "" }] :=
  chat_empty_user_message "dev" "sk-1" none upAllOk rfl rfl

/-! ### Claim C9 -/

/-- Claim C9: the outer exception handler of /api/chat converts any
non-HTTPException raised before the streaming response is returned — in
particular a failure while constructing the upstream client — into HTTP 500
with the exception's message as detail, re-raises HTTPExceptions (those
produced by the failure classifier) unchanged with their original status
and detail, and passes a successful handler body through as the streaming
response. -/
theorem chat_exception_wrapping (req : ChatRequest) (up : Upstream) :
    (∀ e, up.client_init = Except.error e →
      chat req up = ChatResult.httpError 500 e) ∧
    (∀ s d, (chatExec req up).1 = Except.error (HandlerExc.http s d) →
      chat req up = ChatResult.httpError s d) ∧
    (∀ m, (chatExec req up).1 = Except.error (HandlerExc.other m) →
      chat req up = ChatResult.httpError 500 m) ∧
    (∀ fragments, (chatExec req up).1 = Except.ok fragments →
      chat req up = ChatResult.streamResp fragments) := by
  refine ⟨?_, ?_, ?_, ?_⟩
  · intro e he
    simp [chat, chatExec, he, wrapResult]
  · intro s d h
    unfold chat
    rw [h]
    rfl
  · intro m h
    unfold chat
    rw [h]
    rfl
  · intro fragments h
    unfold chat
    rw [h]
    rfl

/-- Claim C9 witness: the exception-wrapping theorem applied to an upstream
whose client construction raises a plain exception. -/
theorem chat_exception_wrapping_witness :
    chat reqDefault upInitFail =
      ChatResult.httpError 500 "client construction failed" :=
  (chat_exception_wrapping reqDefault upInitFail).1
    "client construction failed" rfl
